import Mathlib

/-!
Verification development for the AIformfilling backend (`app.py`).

The file gives a shallow embedding of the folder-scan / extraction pipeline
and the two HTTP handlers, and proves or refutes the specification claims
about them.  Conventions of the embedding:

* Python strings are Lean `String`s; Python indexing/slicing is by code
  point, which matches `String.data : List Char`.
* The filesystem is a list of `SysFile` values in OS enumeration order.
  A file's parse behaviour under each document library is part of the
  `SysFile` record, since the libraries themselves are external.  Paths are
  identified with base names (the directory component plays no role in any
  claim).
* `glob.glob` is modelled with POSIX semantics: a pattern `*.pdf` matches
  names that end in `.pdf` (case sensitively) and do not start with a dot.
* The OpenAI chat-completion adapter and `json.loads` are external
  collaborators, passed in as function parameters `llm` and `jparse`.
-/

/-- Python-style JSON value: the shape of `jsonify` / `json.loads` payloads. -/
inductive JVal where
  | str (s : String)
  | num (n : Int)
  | bool (b : Bool)
  | null
  | arr (xs : List JVal)
  | obj (kvs : List (String × JVal))

/-- Whitespace for Python `str.strip()` (ASCII fragment, which is all the
source ever feeds it). -/
def isPySpace (c : Char) : Bool :=
  c == ' ' || c == '\t' || c == '\n' || c == '\r' || c == '\x0b' || c == '\x0c'

/-- Python `s.strip()`: drop whitespace from both ends. -/
def pyStrip (s : String) : String :=
  String.mk (((s.data.dropWhile isPySpace).reverse.dropWhile isPySpace).reverse)

/-- Python `s[:n]`: the first `n` code points. -/
def pyTake (s : String) (n : Nat) : String :=
  String.mk (s.data.take n)

/-- A directory entry.  The content of the file is abstracted by what each
parsing library would yield on it; only the extractor selected by the
(lowered) extension ever consults the corresponding field.

* `pdfPages`: the page texts `PyPDF2` yields, in order, before the iteration
  either finishes or raises (`page.extract_text()` returning `None` is
  already normalised to `""` by the `or ""` in the source).
* `pdfFails`: whether opening/parsing raises at some point (after the pages
  in `pdfPages` have been accumulated; an open failure is `pdfPages = []`
  with `pdfFails = true`).
* `docxParas`: paragraph texts from `python-docx`, `none` if open/parse raises.
* `txtText`: decoded text of the file, `none` if `open` raises
  (decoding itself never fails because of `errors="ignore"`). -/
structure SysFile where
  name : String
  pdfPages : List String
  pdfFails : Bool
  docxParas : Option (List String)
  txtText : Option String
deriving DecidableEq

/-- `extract_text_from_pdf_path`: accumulate `page_text + "\n"` per page; an
exception is caught and the text accumulated so far is returned. -/
def extract_text_from_pdf_path (f : SysFile) : String :=
  String.join (f.pdfPages.map (fun p => p ++ "\n"))

/-- `extract_text_from_docx_path`: `"\n".join(p.text ...)`, `""` on exception. -/
def extract_text_from_docx_path (f : SysFile) : String :=
  match f.docxParas with
  | some ps => String.intercalate "\n" ps
  | none => ""

/-- `extract_text_from_txt_path`: read the whole file, `""` on exception. -/
def extract_text_from_txt_path (f : SysFile) : String :=
  match f.txtText with
  | some s => s
  | none => ""

/-- Extension of a file name according to CPython `os.path.splitext` (on a
name with no directory separator): the part from the last dot on, unless all
characters before that dot are dots. -/
def extOfName (l : List Char) : List Char :=
  match l.reverse.dropWhile (fun c => c != '.') with
  | [] => []
  | _ :: before =>
      if before.any (fun c => c != '.') then
        '.' :: (l.reverse.takeWhile (fun c => c != '.')).reverse
      else []

/-- `os.path.splitext(path)[1].lower()` from the source (ASCII lowering). -/
def extLower (name : String) : String :=
  String.mk ((extOfName name.data).map Char.toLower)

/-- POSIX `glob` semantics for the patterns `*.pdf`, `*.docx`, `*.txt`: the
name ends with the literal suffix (case sensitively) and, because a leading
`*` never matches a leading dot, the name does not start with a dot. -/
def globMatch (dotExt : String) (name : String) : Bool :=
  dotExt.data.isSuffixOf name.data && name.data.head? != some '.'

/-- The `all_paths` list of `collect_text_from_folder`: the three glob
patterns, extended in the fixed order pdf, docx, txt. -/
def scanFolder (fs : List SysFile) : List SysFile :=
  fs.filter (fun f => globMatch ".pdf" f.name)
    ++ fs.filter (fun f => globMatch ".docx" f.name)
    ++ fs.filter (fun f => globMatch ".txt" f.name)

/-- Dispatch on the lowered extension, exactly as the `if`/`elif` chain does. -/
def extractByExt (f : SysFile) : String :=
  if extLower f.name = ".pdf" then extract_text_from_pdf_path f
  else if extLower f.name = ".docx" then extract_text_from_docx_path f
  else if extLower f.name = ".txt" then extract_text_from_txt_path f
  else ""

/-- One entry of the `files` diagnostic list. -/
structure FileReport where
  path : String
  filename : String
  extension : String
  chars : Nat
  had_text : Bool
deriving DecidableEq

/-- The dict appended to `files_info` for one scanned file. -/
def reportOf (f : SysFile) : FileReport :=
  { path := f.name
    filename := f.name
    extension := extLower f.name
    chars := (extractByExt f).data.length
    had_text := pyStrip (extractByExt f) != "" }

/-- The contribution of one scanned file to `combined_text`. -/
def segmentOf (f : SysFile) : String :=
  if pyStrip (extractByExt f) != "" then
    "\n\n===== FILE: " ++ f.name ++ " =====\n" ++ extractByExt f
  else ""

/-- Result record of `collect_text_from_folder`. -/
structure CollectedText where
  combined_text : String
  files : List FileReport
deriving DecidableEq

/-- `collect_text_from_folder` on an existing directory: glob the three
patterns in order, build a report per match, and concatenate the delimited
text of the files that had text. -/
def collect_text_from_folder (fs : List SysFile) : CollectedText :=
  { combined_text := String.join ((scanFolder fs).map segmentOf)
    files := (scanFolder fs).map reportOf }

/-- The 28 admissions field names enumerated in the extraction prompt. -/
def admissionsKeys : List String :=
  ["name", "email", "phone", "date_of_birth", "nationality",
   "address_line1", "address_line2", "city", "state_region", "country",
   "preferred_contact",
   "level_of_study", "programme_interest", "study_mode", "intake",
   "highest_qualification", "highest_institution", "field_of_study",
   "graduation_year", "grade", "other_qualifications",
   "total_experience", "current_employer", "current_position",
   "industry", "experience_summary",
   "background_statement", "ai_notes"]

/-- Everything of the `user_prompt` f-string before the spliced `text_short`. -/
def promptHead : String :=
  "\nYou are assisting admissions staff at a university.\n\nYou are given text extracted from a student\x27s CV and certificates,\ncombined from multiple documents. Using ONLY this information,\nextract the following details where possible and return them as JSON.\n\nPersonal / contact:\n- name\n- email\n- phone\n- date_of_birth\n- nationality\n- address_line1\n- address_line2\n- city\n- state_region\n- country\n- preferred_contact\n\nProgramme choice:\n- level_of_study\n- programme_interest\n- study_mode\n- intake\n\nPrevious qualifications (highest completed qualification):\n- highest_qualification\n- highest_institution\n- field_of_study\n- graduation_year\n- grade\n\nOther academic info:\n- other_qualifications\n\nWork experience:\n- total_experience\n- current_employer\n- current_position\n- industry\n- experience_summary\n\nMotivation / background:\n- background_statement\n\nAI helper:\n- ai_notes\n\nIf a field is not clearly available in the documents, return an empty string.\nDo NOT invent details.\n\nReturn a single JSON object with exactly these keys:\nname, email, phone, date_of_birth, nationality,\naddress_line1, address_line2, city, state_region, country,\npreferred_contact,\nlevel_of_study, programme_interest, study_mode, intake,\nhighest_qualification, highest_institution, field_of_study,\ngraduation_year, grade, other_qualifications,\ntotal_experience, current_employer, current_position,\nindustry, experience_summary,\nbackground_statement, ai_notes.\n\nTEXT FROM FOLDER (truncated):\n\"\"\""

/-- The `user_prompt` f-string of `analyse_folder` with `text_short` spliced in. -/
def buildUserPrompt (text_short : String) : String :=
  promptHead ++ text_short ++ "\"\"\"\n"

/-- Python `data[k] = v` on a dict rendered as an ordered key/value list:
an existing key keeps its position and gets the new value, a new key is
appended at the end. -/
def setKey : List (String × JVal) → String → JVal → List (String × JVal)
  | [], k, v => [(k, v)]
  | (k', v') :: rest, k, v =>
      if k' = k then (k, v) :: rest else (k', v') :: setKey rest k v

/-- First binding of a key in an ordered key/value list. -/
def lookupKey : List (String × JVal) → String → Option JVal
  | [], _ => none
  | (k', v) :: rest, k => if k' = k then some v else lookupKey rest k

/-- `j[k]` read on a JSON object (`none` on any other shape). -/
def jsonGet (j : JVal) (k : String) : Option JVal :=
  match j with
  | JVal.obj kvs => lookupKey kvs k
  | _ => none

/-- `j[k] = v` on a JSON object.  The non-object arm is never reached from
this code base (`analyse_folder` always returns an object, see
`analyse_folder_isObj`). -/
def jsonSet (j : JVal) (k : String) (v : JVal) : JVal :=
  match j with
  | JVal.obj kvs => JVal.obj (setKey kvs k v)
  | _ => j

/-- Key list of a JSON object (`[]` on any other shape). -/
def jsonKeys (j : JVal) : List String :=
  match j with
  | JVal.obj kvs => kvs.map Prod.fst
  | _ => []

/-- Rendering of one `files_info` dict as JSON. -/
def reportJson (r : FileReport) : JVal :=
  JVal.obj
    [("path", JVal.str r.path),
     ("filename", JVal.str r.filename),
     ("extension", JVal.str r.extension),
     ("chars", JVal.num (r.chars : Int)),
     ("had_text", JVal.bool r.had_text)]

/-- Rendering of the whole `files_info` list as JSON. -/
def filesJson (rs : List FileReport) : JVal :=
  JVal.arr (rs.map reportJson)

/-- Modelled abstractly: the text of the Python `TypeError` raised by
`data["files"] = files_info` when `json.loads` returns a non-dict value.
Its exact wording plays no role in any claim. -/
def pyTypeErrorText : JVal → String :=
  fun _ => "object does not support item assignment"

/-- The `except` arm of `analyse_folder`: the message embeds `str(e)`. -/
def aiServiceError (e : String) (files_info : JVal) : JVal :=
  JVal.obj
    [("error", JVal.str ("Error while contacting AI service: " ++ e)),
     ("files", files_info)]

/-- `analyse_folder` on an existing directory.  `llm` abstracts the chat
completion call (returns the completion text, or raises with message `e`);
`jparse` abstracts `json.loads` (returns a JSON value, or raises).  The
single `try`/`except` of the source catches the adapter failure, the parse
failure, and the `TypeError` of assigning into a non-dict alike. -/
def analyse_folder (fs : List SysFile) (llm : String → Except String String)
    (jparse : String → Except String JVal) : JVal :=
  if pyStrip (collect_text_from_folder fs).combined_text = "" then
    JVal.obj
      [("error", JVal.str "No readable text found in folder (PDF/DOCX/TXT)."),
       ("files", filesJson (collect_text_from_folder fs).files)]
  else
    match llm (buildUserPrompt
        (pyTake (collect_text_from_folder fs).combined_text 20000)) with
    | Except.error e =>
        aiServiceError e (filesJson (collect_text_from_folder fs).files)
    | Except.ok content =>
        match jparse content with
        | Except.error e =>
            aiServiceError e (filesJson (collect_text_from_folder fs).files)
        | Except.ok (JVal.obj kvs) =>
            JVal.obj (setKey kvs "files" (filesJson (collect_text_from_folder fs).files))
        | Except.ok j =>
            aiServiceError (pyTypeErrorText j)
              (filesJson (collect_text_from_folder fs).files)

/-- The user message of the `/ai-assist` completion call. -/
def aiUserContent (raw_text : String) : String :=
  "Rewrite and improve the following motivation/background text, keeping all important information:\n\n" ++ raw_text

/-- The `/ai-assist` handler.  `bodyRawText` is `raw_text` from the JSON
body (`none` when the body is missing/non-JSON or has no such key, in which
case `data.get("raw_text", "")` yields `""`).  Returns HTTP status and
payload. -/
def ai_assist (bodyRawText : Option String)
    (llm : String → Except String String) : Nat × JVal :=
  if pyStrip (bodyRawText.getD "") = "" then
    (400, JVal.obj [("error", JVal.str "No text provided.")])
  else
    match llm (aiUserContent (bodyRawText.getD "")) with
    | Except.ok improved => (200, JVal.obj [("improved_text", JVal.str improved)])
    | Except.error _ =>
        (500, JVal.obj [("error", JVal.str "Error while contacting the AI service.")])

/-- The `/folder-assist` handler.  `bodyFolderPath` is `folder_path` from
the JSON body; `dirs` abstracts the filesystem (`os.path.isdir` plus the
directory listing); `elapsed` is the opaque `time.perf_counter` difference. -/
def folder_assist (bodyFolderPath : Option String)
    (dirs : String → Option (List SysFile))
    (llm : String → Except String String)
    (jparse : String → Except String JVal)
    (elapsed : JVal) : Nat × JVal :=
  if pyStrip (bodyFolderPath.getD "") = "" then
    (200, JVal.obj [("error", JVal.str "No folder path provided.")])
  else
    match dirs (pyStrip (bodyFolderPath.getD "")) with
    | none =>
        (200, JVal.obj
          [("error", JVal.str ("Folder does not exist: " ++ pyStrip (bodyFolderPath.getD "")))])
    | some fs =>
        (200, jsonSet (analyse_folder fs llm jparse) "elapsed_seconds" elapsed)

/-! ### Helper lemmas -/

/-- A string is empty exactly when its character list is. -/
lemma string_eq_empty_iff (s : String) : s = "" ↔ s.data = [] := by
  cases s
  constructor
  · intro h
    simpa using congrArg String.data h
  · intro h
    simp only at h
    rw [h]

/-- `s.strip()` is empty exactly when every character of `s` is whitespace. -/
lemma pyStrip_eq_empty_iff (s : String) :
    pyStrip s = "" ↔ ∀ c ∈ s.data, isPySpace c := by
  unfold pyStrip
  rw [string_eq_empty_iff]
  constructor
  · intro h c hc
    simp only [String.data] at h
    rw [List.reverse_eq_nil_iff] at h
    have h₁ : ∀ x ∈ (s.data.dropWhile isPySpace).reverse, isPySpace x :=
      List.dropWhile_eq_nil_iff.mp h
    have h₂ : s.data.takeWhile isPySpace ++ s.data.dropWhile isPySpace = s.data :=
      List.takeWhile_append_dropWhile isPySpace s.data
    rw [← h₂] at hc
    rcases List.mem_append.mp hc with hl | hr
    · exact List.mem_takeWhile_imp hl
    · exact h₁ c (List.mem_reverse.mpr hr)
  · intro h
    have h₁ : s.data.dropWhile isPySpace = [] :=
      List.dropWhile_eq_nil_iff.mpr h
    simp [h₁]

/-- `takeWhile` walks through a block that satisfies the predicate. -/
lemma takeWhile_all_append (p : Char → Bool) (a b : List Char)
    (h : ∀ c ∈ a, p c = true) :
    (a ++ b).takeWhile p = a ++ b.takeWhile p := by
  induction a with
  | nil => simp
  | cons x xs ih =>
      have hx : p x = true := h x (by simp)
      simp only [List.cons_append, List.takeWhile_cons, hx, if_true]
      rw [ih (fun c hc => h c (by simp [hc]))]

/-- `dropWhile` walks through a block that satisfies the predicate. -/
lemma dropWhile_all_append (p : Char → Bool) (a b : List Char)
    (h : ∀ c ∈ a, p c = true) :
    (a ++ b).dropWhile p = b.dropWhile p := by
  induction a with
  | nil => simp
  | cons x xs ih =>
      have hx : p x = true := h x (by simp)
      simp only [List.cons_append, List.dropWhile_cons, hx, if_true]
      exact ih (fun c hc => h c (by simp [hc]))

/-- `splitext` on a name of the form `pre ++ "." ++ e` where the candidate
extension `e` has no dot and `pre` has some non-dot character: the
extension is `"." ++ e`. -/
lemma extOfName_concat (pre e : List Char) (hpre : ∃ c ∈ pre, c ≠ '.')
    (hnd : ∀ c ∈ e, c ≠ '.') :
    extOfName (pre ++ '.' :: e) = '.' :: e := by
  unfold extOfName
  have hrev : (pre ++ '.' :: e).reverse = e.reverse ++ '.' :: pre.reverse := by
    simp
  rw [hrev]
  have hall : ∀ c ∈ e.reverse, (c != '.') = true := by
    intro c hc
    rw [bne_iff_ne]
    exact hnd c (List.mem_reverse.mp hc)
  rw [dropWhile_all_append _ _ _ hall, takeWhile_all_append _ _ _ hall]
  have hdw : List.dropWhile (fun c => c != '.') ('.' :: pre.reverse) = '.' :: pre.reverse := by
    simp [List.dropWhile_cons]
  have htw : List.takeWhile (fun c => c != '.') ('.' :: pre.reverse) = [] := by
    simp [List.takeWhile_cons]
  rw [hdw, htw]
  have hany : pre.reverse.any (fun c => c != '.') = true := by
    rcases hpre with ⟨c, hc, hcne⟩
    exact List.any_eq_true.mpr ⟨c, List.mem_reverse.mpr hc, bne_iff_ne.mpr hcne⟩
  simp [hany]

/-- A glob match against a pattern `*.e` forces `splitext` to report the
extension `.e` (for a dot-free, non-empty `e`). -/
lemma extOfName_of_glob (name : String) (e : List Char)
    (hnd : ∀ c ∈ e, c ≠ '.')
    (h : globMatch (String.mk ('.' :: e)) name = true) :
    extOfName name.data = '.' :: e := by
  unfold globMatch at h
  rcases Bool.and_eq_true_iff.mp h with ⟨hsuf, hhead⟩
  have hhead' : name.data.head? ≠ some '.' := bne_iff_ne.mp hhead
  rcases List.isSuffixOf_iff_suffix.mp hsuf with ⟨t, ht⟩
  simp only [String.data] at ht
  match t, ht with
  | [], ht =>
      exfalso
      apply hhead'
      rw [← ht]
      rfl
  | c :: t', ht =>
      have hc : c ≠ '.' := by
        intro hcd
        apply hhead'
        rw [← ht, hcd]
        rfl
      rw [← ht]
      exact extOfName_concat (c :: t') e ⟨c, by simp, hc⟩ hnd

/-- Files matched by the `*.pdf` pattern get extension `".pdf"`. -/
lemma extLower_glob_pdf (name : String) (h : globMatch ".pdf" name = true) :
    extLower name = ".pdf" := by
  have h1 : extOfName name.data = '.' :: ['p', 'd', 'f'] :=
    extOfName_of_glob name ['p', 'd', 'f'] (by decide) h
  unfold extLower
  rw [h1]
  decide

/-- Files matched by the `*.docx` pattern get extension `".docx"`. -/
lemma extLower_glob_docx (name : String) (h : globMatch ".docx" name = true) :
    extLower name = ".docx" := by
  have h1 : extOfName name.data = '.' :: ['d', 'o', 'c', 'x'] :=
    extOfName_of_glob name ['d', 'o', 'c', 'x'] (by decide) h
  unfold extLower
  rw [h1]
  decide

/-- Files matched by the `*.txt` pattern get extension `".txt"`. -/
lemma extLower_glob_txt (name : String) (h : globMatch ".txt" name = true) :
    extLower name = ".txt" := by
  have h1 : extOfName name.data = '.' :: ['t', 'x', 't'] :=
    extOfName_of_glob name ['t', 'x', 't'] (by decide) h
  unfold extLower
  rw [h1]
  decide

/-- Reading back the key just written by a dict assignment. -/
lemma lookup_setKey (kvs : List (String × JVal)) (k : String) (v : JVal) :
    lookupKey (setKey kvs k v) k = some v := by
  induction kvs with
  | nil => simp [setKey, lookupKey]
  | cons kv rest ih =>
      obtain ⟨k', v'⟩ := kv
      by_cases hk : k' = k
      · simp [setKey, hk, lookupKey]
      · simp [setKey, hk, lookupKey, ih]

/-- Keys after a dict assignment: unchanged if the key existed, appended
otherwise. -/
lemma map_fst_setKey (kvs : List (String × JVal)) (k : String) (v : JVal) :
    (setKey kvs k v).map Prod.fst =
      if k ∈ kvs.map Prod.fst then kvs.map Prod.fst
      else kvs.map Prod.fst ++ [k] := by
  induction kvs with
  | nil => simp [setKey]
  | cons kv rest ih =>
      obtain ⟨k', v'⟩ := kv
      by_cases hk : k' = k
      · subst hk
        simp [setKey]
      · have hmem : (k ∈ List.map Prod.fst ((k', v') :: rest)) ↔
            k ∈ rest.map Prod.fst := by
          simp [List.mem_cons]
          intro he
          exact absurd he.symm hk
        by_cases hm : k ∈ rest.map Prod.fst
        · simp [setKey, hk, ih, hm, hmem.mpr hm]
        · rw [if_neg (fun hc => hm (hmem.mp hc))]
          simp [setKey, hk, ih, hm]

/-- `analyse_folder` returns a JSON object on every path. -/
lemma analyse_folder_isObj (fs : List SysFile)
    (llm : String → Except String String)
    (jparse : String → Except String JVal) :
    ∃ kvs, analyse_folder fs llm jparse = JVal.obj kvs := by
  unfold analyse_folder
  split
  · exact ⟨_, rfl⟩
  · split
    · exact ⟨_, rfl⟩
    · split
      · exact ⟨_, rfl⟩
      · exact ⟨_, rfl⟩
      · exact ⟨_, rfl⟩

/-- Every response of `analyse_folder` carries the full per-file report
under the key `files`. -/
lemma analyse_folder_files_get (fs : List SysFile)
    (llm : String → Except String String)
    (jparse : String → Except String JVal) :
    jsonGet (analyse_folder fs llm jparse) "files" =
      some (filesJson (collect_text_from_folder fs).files) := by
  unfold analyse_folder
  split
  · rfl
  · split
    · rfl
    · split
      · rfl
      · exact lookup_setKey _ "files" _
      · rfl

/-! ### Concrete fixtures -/

/-- A folder entry `a.txt` whose content reads as `"Hello"`. -/
def demoTxtFile : SysFile :=
  { name := "a.txt", pdfPages := [], pdfFails := false, docxParas := none,
    txtText := some "Hello" }

/-- The one-file demo folder. -/
def demoFolder : List SysFile := [demoTxtFile]

/-- A PDF file whose extension differs from the glob pattern only in case. -/
def upperPdfFile : SysFile :=
  { name := "b.PDF", pdfPages := ["Hi"], pdfFails := false, docxParas := none,
    txtText := none }

/-- A PDF whose parser raises after one page of text has been extracted. -/
def partialPdfFile : SysFile :=
  { name := "p.pdf", pdfPages := ["Hi"], pdfFails := true, docxParas := none,
    txtText := none }

/-- A file on which every extractor fails before reading anything. -/
def failAllFile : SysFile :=
  { name := "q.pdf", pdfPages := [], pdfFails := true, docxParas := none,
    txtText := none }

/-- An adapter that answers `"x"`. -/
def demoLLMok : String → Except String String := fun _ => Except.ok "x"

/-- An adapter that raises with message `"boom"`. -/
def demoLLMerrBoom : String → Except String String := fun _ => Except.error "boom"

/-- An adapter that raises with message `"zap"`. -/
def demoLLMerrZap : String → Except String String := fun _ => Except.error "zap"

/-- A parse that yields a JSON object with the single key `foo`. -/
def demoParseFoo : String → Except String JVal :=
  fun _ => Except.ok (JVal.obj [("foo", JVal.str "bar")])

/-- A JSON object carrying exactly the admissions keys, all empty. -/
def demoFullObj : List (String × JVal) :=
  admissionsKeys.map (fun k => (k, JVal.str ""))

/-- A parse that yields the fully keyed admissions object. -/
def demoParseFull : String → Except String JVal :=
  fun _ => Except.ok (JVal.obj demoFullObj)

/-- The `error` field of a payload, when it is a string. -/
def jerrText (j : JVal) : Option String :=
  match jsonGet j "error" with
  | some (JVal.str s) => some s
  | _ => none

/-! ### Claims -/

/-- C6: for a directory with exactly one file `a.txt` containing `"Hello"`,
`collect_text_from_folder` returns combined text
`"\n\n===== FILE: a.txt =====\nHello"` and the single report
`{filename: "a.txt", extension: ".txt", chars: 5, had_text: true}`. -/
theorem claim_C6 :
    collect_text_from_folder demoFolder =
      { combined_text := "\n\n===== FILE: a.txt =====\nHello"
        files := [{ path := "a.txt", filename := "a.txt", extension := ".txt",
                    chars := 5, had_text := true }] } := by
  decide

/-- C2, counterexample: a file named `b.PDF` — extension differing from
`.pdf` only in letter case — is not scanned at all under POSIX glob
semantics, so it gets no `FileReport`, contrary to the claim. -/
theorem claim_C2_counterexample :
    (collect_text_from_folder [upperPdfFile]).files = [] := by
  decide

/-- C2, amended: `collect_text_from_folder` reports exactly the immediate
entries whose name ends in `.pdf`, `.docx` or `.txt` case-SENSITIVELY (and
does not begin with a dot); matching is only case-insensitive on platforms
whose glob normalises case, which the code does not control. -/
theorem claim_C2 (fs : List SysFile) (name : String) :
    (∃ r ∈ (collect_text_from_folder fs).files, r.filename = name) ↔
      (∃ f ∈ fs, f.name = name
        ∧ (".pdf".data.isSuffixOf name.data = true
            ∨ ".docx".data.isSuffixOf name.data = true
            ∨ ".txt".data.isSuffixOf name.data = true)
        ∧ name.data.head? ≠ some '.') := by
  constructor
  · rintro ⟨r, hr, hname⟩
    rcases List.mem_map.mp hr with ⟨f, hf, hrf⟩
    have hfn : f.name = name := by rw [← hname, ← hrf]; rfl
    rcases List.mem_append.mp hf with hf' | hf'
    · rcases List.mem_append.mp hf' with hf'' | hf''
      · rcases List.mem_filter.mp hf'' with ⟨hmem, hg⟩
        rcases Bool.and_eq_true_iff.mp hg with ⟨hs, hh⟩
        exact ⟨f, hmem, hfn, Or.inl (hfn ▸ hs), hfn ▸ bne_iff_ne.mp hh⟩
      · rcases List.mem_filter.mp hf'' with ⟨hmem, hg⟩
        rcases Bool.and_eq_true_iff.mp hg with ⟨hs, hh⟩
        exact ⟨f, hmem, hfn, Or.inr (Or.inl (hfn ▸ hs)), hfn ▸ bne_iff_ne.mp hh⟩
    · rcases List.mem_filter.mp hf' with ⟨hmem, hg⟩
      rcases Bool.and_eq_true_iff.mp hg with ⟨hs, hh⟩
      exact ⟨f, hmem, hfn, Or.inr (Or.inr (hfn ▸ hs)), hfn ▸ bne_iff_ne.mp hh⟩
  · rintro ⟨f, hf, hfn, hsuf, hhead⟩
    have hh : (f.name.data.head? != some '.') = true := by
      rw [bne_iff_ne, hfn]; exact hhead
    refine ⟨reportOf f, ?_, by rw [← hfn]; rfl⟩
    apply List.mem_map_of_mem reportOf
    rcases hsuf with hs | hs | hs
    · exact List.mem_append.mpr (Or.inl (List.mem_append.mpr (Or.inl
        (List.mem_filter.mpr ⟨hf, Bool.and_eq_true_iff.mpr ⟨hfn ▸ hs, hh⟩⟩))))
    · exact List.mem_append.mpr (Or.inl (List.mem_append.mpr (Or.inr
        (List.mem_filter.mpr ⟨hf, Bool.and_eq_true_iff.mpr ⟨hfn ▸ hs, hh⟩⟩))))
    · exact List.mem_append.mpr (Or.inr
        (List.mem_filter.mpr ⟨hf, Bool.and_eq_true_iff.mpr ⟨hfn ▸ hs, hh⟩⟩))

/-- C10: the `files` list of every scan decomposes into a block of `.pdf`
reports, then a block of `.docx` reports, then a block of `.txt` reports,
because the collector globs the three patterns in that fixed order. -/
theorem claim_C10 (fs : List SysFile) :
    ∃ l1 l2 l3,
      (collect_text_from_folder fs).files = l1 ++ l2 ++ l3
      ∧ (∀ r ∈ l1, r.extension = ".pdf")
      ∧ (∀ r ∈ l2, r.extension = ".docx")
      ∧ (∀ r ∈ l3, r.extension = ".txt") := by
  refine ⟨(fs.filter (fun f => globMatch ".pdf" f.name)).map reportOf,
          (fs.filter (fun f => globMatch ".docx" f.name)).map reportOf,
          (fs.filter (fun f => globMatch ".txt" f.name)).map reportOf,
          ?_, ?_, ?_, ?_⟩
  · simp [collect_text_from_folder, scanFolder]
  · intro r hr
    rcases List.mem_map.mp hr with ⟨f, hf, hrf⟩
    rw [← hrf]
    exact extLower_glob_pdf f.name (List.mem_filter.mp hf).2
  · intro r hr
    rcases List.mem_map.mp hr with ⟨f, hf, hrf⟩
    rw [← hrf]
    exact extLower_glob_docx f.name (List.mem_filter.mp hf).2
  · intro r hr
    rcases List.mem_map.mp hr with ⟨f, hf, hrf⟩
    rw [← hrf]
    exact extLower_glob_txt f.name (List.mem_filter.mp hf).2

/-- C7, counterexample: a PDF whose parser raises after one page has been
read returns the partial text `"Hi\n"`, not the empty string the claim
promises for failed files. -/
theorem claim_C7_counterexample :
    partialPdfFile.pdfFails = true
    ∧ extract_text_from_pdf_path partialPdfFile = "Hi\n"
    ∧ extract_text_from_pdf_path partialPdfFile ≠ "" := by
  decide

/-- C7, amended: no extractor propagates an exception (they are total);
DOCX and TXT failures always yield empty text, and a PDF failure yields
exactly the text of the pages already processed — empty only when the
failure precedes the first page. -/
theorem claim_C7 (f : SysFile) :
    (f.txtText = none → extract_text_from_txt_path f = "")
    ∧ (f.docxParas = none → extract_text_from_docx_path f = "")
    ∧ (f.pdfPages = [] → extract_text_from_pdf_path f = "") := by
  refine ⟨?_, ?_, ?_⟩ <;> intro h <;>
    simp [extract_text_from_txt_path, extract_text_from_docx_path,
          extract_text_from_pdf_path, h, String.join]

/-- C7 witness: on a file where all three libraries fail up front, each
extractor yields the empty string. -/
theorem claim_C7_witness :
    (failAllFile.txtText = none ∧ failAllFile.docxParas = none
      ∧ failAllFile.pdfPages = [])
    ∧ (extract_text_from_txt_path failAllFile = ""
      ∧ extract_text_from_docx_path failAllFile = ""
      ∧ extract_text_from_pdf_path failAllFile = "") :=
  ⟨⟨rfl, rfl, rfl⟩,
   ⟨(claim_C7 failAllFile).1 rfl, (claim_C7 failAllFile).2.1 rfl,
    (claim_C7 failAllFile).2.2 rfl⟩⟩

/-- C4: when the collected combined text is blank after stripping,
`analyse_folder` answers the no-readable-text error with the computed
`files` list, and the result does not depend on the LLM adapter or the JSON
parser (they are never consulted). -/
theorem claim_C4 (fs : List SysFile)
    (llm llm' : String → Except String String)
    (jparse jparse' : String → Except String JVal)
    (h : pyStrip (collect_text_from_folder fs).combined_text = "") :
    analyse_folder fs llm jparse =
      JVal.obj
        [("error", JVal.str "No readable text found in folder (PDF/DOCX/TXT)."),
         ("files", filesJson (collect_text_from_folder fs).files)]
    ∧ analyse_folder fs llm jparse = analyse_folder fs llm' jparse' := by
  constructor
  · unfold analyse_folder
    rw [if_pos h]
  · unfold analyse_folder
    rw [if_pos h, if_pos h]

/-- C4 witness: the empty folder collects blank text and short-circuits. -/
theorem claim_C4_witness :
    pyStrip (collect_text_from_folder []).combined_text = ""
    ∧ (analyse_folder [] demoLLMok demoParseFoo =
        JVal.obj
          [("error", JVal.str "No readable text found in folder (PDF/DOCX/TXT)."),
           ("files", filesJson (collect_text_from_folder []).files)]
      ∧ analyse_folder [] demoLLMok demoParseFoo =
          analyse_folder [] demoLLMerrBoom demoParseFoo) :=
  ⟨by decide, claim_C4 [] demoLLMok demoLLMerrBoom demoParseFoo demoParseFoo (by decide)⟩

/-- C8: a blank (or absent) `raw_text` makes `/ai-assist` answer HTTP 400
with a JSON error and the adapter is never consulted; a non-blank
`raw_text` on which the adapter raises yields HTTP 500 with the fixed
generic message. -/
theorem claim_C8 :
    (∀ (body : Option String) (llm llm' : String → Except String String),
      pyStrip (body.getD "") = "" →
        ai_assist body llm = (400, JVal.obj [("error", JVal.str "No text provided.")])
        ∧ ai_assist body llm = ai_assist body llm')
    ∧ (∀ (body : Option String) (llm : String → Except String String) (e : String),
      pyStrip (body.getD "") ≠ "" →
      llm (aiUserContent (body.getD "")) = Except.error e →
        ai_assist body llm =
          (500, JVal.obj [("error", JVal.str "Error while contacting the AI service.")])) := by
  constructor
  · intro body llm llm' h
    constructor
    · unfold ai_assist
      rw [if_pos h]
    · unfold ai_assist
      rw [if_pos h, if_pos h]
  · intro body llm e h hllm
    unfold ai_assist
    rw [if_neg h, hllm]

/-- C8 witness: a missing body gives 400 independently of the adapter; the
body `"hi"` with a raising adapter gives the generic 500. -/
theorem claim_C8_witness :
    (pyStrip ((none : Option String).getD "") = ""
      ∧ ai_assist none demoLLMok = (400, JVal.obj [("error", JVal.str "No text provided.")])
      ∧ ai_assist none demoLLMok = ai_assist none demoLLMerrBoom)
    ∧ (pyStrip ((some "hi").getD "") ≠ ""
      ∧ ai_assist (some "hi") demoLLMerrBoom =
          (500, JVal.obj [("error", JVal.str "Error while contacting the AI service.")])) :=
  ⟨⟨by decide, (claim_C8.1 none demoLLMok demoLLMerrBoom (by decide)).1,
    (claim_C8.1 none demoLLMok demoLLMerrBoom (by decide)).2⟩,
   ⟨by decide, claim_C8.2 (some "hi") demoLLMerrBoom "boom" (by decide) rfl⟩⟩

/-- A filesystem for the C9 witness: one existing, empty directory. -/
def demoDirs : String → Option (List SysFile) := fun _ => some []

/-- C9: for an existing directory — whatever `analyse_folder` returns,
error payload or extraction payload — the `/folder-assist` handler responds
200 and the payload carries the `elapsed_seconds` key it adds. -/
theorem claim_C9 (bodyPath : Option String) (dirs : String → Option (List SysFile))
    (llm : String → Except String String) (jparse : String → Except String JVal)
    (elapsed : JVal) (fs : List SysFile)
    (h1 : pyStrip (bodyPath.getD "") ≠ "")
    (h2 : dirs (pyStrip (bodyPath.getD "")) = some fs) :
    (folder_assist bodyPath dirs llm jparse elapsed).1 = 200
    ∧ jsonGet (folder_assist bodyPath dirs llm jparse elapsed).2 "elapsed_seconds" =
        some elapsed := by
  obtain ⟨kvs, hk⟩ := analyse_folder_isObj fs llm jparse
  unfold folder_assist
  rw [if_neg h1, h2]
  refine ⟨rfl, ?_⟩
  show jsonGet (jsonSet (analyse_folder fs llm jparse) "elapsed_seconds" elapsed)
      "elapsed_seconds" = some elapsed
  rw [hk]
  show lookupKey (setKey kvs "elapsed_seconds" elapsed) "elapsed_seconds" = some elapsed
  exact lookup_setKey kvs "elapsed_seconds" elapsed

/-- C9 witness: an existing empty directory produces a 200 response whose
payload has `elapsed_seconds` even though it is the no-readable-text
`ErrorResult`. -/
theorem claim_C9_witness :
    (pyStrip ((some "d").getD "") ≠ ""
      ∧ demoDirs (pyStrip ((some "d").getD "")) = some [])
    ∧ ((folder_assist (some "d") demoDirs demoLLMok demoParseFoo (JVal.num 0)).1 = 200
      ∧ jsonGet (folder_assist (some "d") demoDirs demoLLMok demoParseFoo (JVal.num 0)).2
          "elapsed_seconds" = some (JVal.num 0)) :=
  ⟨⟨by decide, rfl⟩,
   claim_C9 (some "d") demoDirs demoLLMok demoParseFoo (JVal.num 0) [] (by decide) rfl⟩

/-- C3, counterexample: on the `/folder-assist` extraction path the error
string sent to the client embeds the adapter exception text verbatim — two
different provider exceptions produce two different client-visible
messages, so the message is not generic. -/
theorem claim_C3_counterexample :
    jerrText (analyse_folder demoFolder demoLLMerrBoom demoParseFoo) =
      some "Error while contacting AI service: boom"
    ∧ jerrText (analyse_folder demoFolder demoLLMerrBoom demoParseFoo) ≠
        jerrText (analyse_folder demoFolder demoLLMerrZap demoParseFoo) := by
  decide

/-- C3, amended: only `/ai-assist` hides the provider failure behind a
fixed generic message; the `/folder-assist` extraction path returns
`"Error while contacting AI service: "` followed by the exception text. -/
theorem claim_C3 :
    (∀ (fs : List SysFile) (jparse : String → Except String JVal)
        (llm : String → Except String String) (e : String),
      pyStrip (collect_text_from_folder fs).combined_text ≠ "" →
      llm (buildUserPrompt (pyTake (collect_text_from_folder fs).combined_text 20000)) =
        Except.error e →
        analyse_folder fs llm jparse =
          JVal.obj
            [("error", JVal.str ("Error while contacting AI service: " ++ e)),
             ("files", filesJson (collect_text_from_folder fs).files)])
    ∧ (∀ (body : Option String) (llm llm' : String → Except String String) (e e' : String),
      pyStrip (body.getD "") ≠ "" →
      llm (aiUserContent (body.getD "")) = Except.error e →
      llm' (aiUserContent (body.getD "")) = Except.error e' →
        ai_assist body llm =
          (500, JVal.obj [("error", JVal.str "Error while contacting the AI service.")])
        ∧ ai_assist body llm = ai_assist body llm') := by
  constructor
  · intro fs jparse llm e h hllm
    unfold analyse_folder
    rw [if_neg h, hllm]
    rfl
  · intro body llm llm' e e' h hllm hllm'
    constructor
    · unfold ai_assist
      rw [if_neg h, hllm]
    · unfold ai_assist
      rw [if_neg h, if_neg h, hllm, hllm']

/-- C3 witness: the folder path surfaces `"boom"` to the client; the
rewrite path answers the same generic 500 for `"boom"` and `"zap"`. -/
theorem claim_C3_witness :
    (pyStrip (collect_text_from_folder demoFolder).combined_text ≠ ""
      ∧ analyse_folder demoFolder demoLLMerrBoom demoParseFoo =
          JVal.obj
            [("error", JVal.str ("Error while contacting AI service: " ++ "boom")),
             ("files", filesJson (collect_text_from_folder demoFolder).files)])
    ∧ (pyStrip ((some "hi").getD "") ≠ ""
      ∧ ai_assist (some "hi") demoLLMerrBoom =
          (500, JVal.obj [("error", JVal.str "Error while contacting the AI service.")])
      ∧ ai_assist (some "hi") demoLLMerrBoom = ai_assist (some "hi") demoLLMerrZap) :=
  ⟨⟨by decide, claim_C3.1 demoFolder demoParseFoo demoLLMerrBoom "boom" (by decide) rfl⟩,
   ⟨by decide, (claim_C3.2 (some "hi") demoLLMerrBoom demoLLMerrZap "boom" "zap"
      (by decide) rfl rfl).1,
    (claim_C3.2 (some "hi") demoLLMerrBoom demoLLMerrZap "boom" "zap"
      (by decide) rfl rfl).2⟩⟩

/-- C1, counterexample: the assembler performs no key validation — when the
adapter succeeds and the completion parses as the JSON object
`{"foo": "bar"}`, the resulting mapping has keys `foo` and `files`, not the
enumerated admissions set. -/
theorem claim_C1_counterexample :
    jsonKeys (analyse_folder demoFolder demoLLMok demoParseFoo) = ["foo", "files"]
    ∧ jsonKeys (analyse_folder demoFolder demoLLMok demoParseFoo) ≠
        admissionsKeys ++ ["files"] := by
  decide

/-- C1, amended: when the adapter succeeds and the completion parses as a
JSON object, the result is exactly that object with `files` set — its keys
are the parsed object's keys plus `files`; they equal the enumerated
admissions set only when the LLM actually returned exactly those keys,
which the code never checks. -/
theorem claim_C1 (fs : List SysFile) (llm : String → Except String String)
    (jparse : String → Except String JVal) (content : String)
    (kvs : List (String × JVal))
    (h1 : pyStrip (collect_text_from_folder fs).combined_text ≠ "")
    (h2 : llm (buildUserPrompt (pyTake (collect_text_from_folder fs).combined_text 20000)) =
      Except.ok content)
    (h3 : jparse content = Except.ok (JVal.obj kvs)) :
    analyse_folder fs llm jparse =
      JVal.obj (setKey kvs "files" (filesJson (collect_text_from_folder fs).files))
    ∧ jsonKeys (analyse_folder fs llm jparse) =
        (if "files" ∈ kvs.map Prod.fst then kvs.map Prod.fst
         else kvs.map Prod.fst ++ ["files"])
    ∧ (kvs.map Prod.fst = admissionsKeys →
        jsonKeys (analyse_folder fs llm jparse) = admissionsKeys ++ ["files"]) := by
  have hmain : analyse_folder fs llm jparse =
      JVal.obj (setKey kvs "files" (filesJson (collect_text_from_folder fs).files)) := by
    unfold analyse_folder
    rw [if_neg h1, h2]
    simp only [h3]
  refine ⟨hmain, ?_, ?_⟩
  · rw [hmain]
    show (setKey kvs "files" (filesJson (collect_text_from_folder fs).files)).map Prod.fst = _
    exact map_fst_setKey kvs "files" _
  · intro hk
    rw [hmain]
    show (setKey kvs "files" (filesJson (collect_text_from_folder fs).files)).map Prod.fst = _
    rw [map_fst_setKey, hk, if_neg (by decide)]

/-- C1 witness: when the adapter does return exactly the admissions keys,
the response keys are the admissions set plus `files`. -/
theorem claim_C1_witness :
    (pyStrip (collect_text_from_folder demoFolder).combined_text ≠ ""
      ∧ demoParseFull "x" = Except.ok (JVal.obj demoFullObj))
    ∧ jsonKeys (analyse_folder demoFolder demoLLMok demoParseFull) =
        admissionsKeys ++ ["files"] :=
  ⟨⟨by decide, rfl⟩,
   (claim_C1 demoFolder demoLLMok demoParseFull "x" demoFullObj
      (by decide) rfl rfl).2.2 (by decide)⟩

/-- Appending to the empty string is the identity. -/
lemma string_nil_append (s : String) : "" ++ s = s := by
  cases s
  rfl

/-- A folder entry `b.txt` whose content is 20001 characters long. -/
def bigTxtFile : SysFile :=
  { name := "b.txt", pdfPages := [], pdfFails := false, docxParas := none,
    txtText := some (String.mk (List.replicate 20001 'x')) }

/-- The extractor dispatch reads `b.txt` as text. -/
lemma bigExtract : extractByExt bigTxtFile = String.mk (List.replicate 20001 'x') := by
  unfold extractByExt
  rw [show extLower bigTxtFile.name = ".txt" from by decide]
  rw [if_neg (by decide), if_neg (by decide), if_pos rfl]
  rfl

/-- The scan of the one-file big folder finds exactly that file. -/
lemma bigScan : scanFolder [bigTxtFile] = [bigTxtFile] := by
  have hp : globMatch ".pdf" bigTxtFile.name = false := by decide
  have hd : globMatch ".docx" bigTxtFile.name = false := by decide
  have ht : globMatch ".txt" bigTxtFile.name = true := by decide
  unfold scanFolder
  simp [List.filter_cons, hp, hd, ht]

/-- A 20001-character block of `x` does not strip to empty. -/
lemma bigStripNe : pyStrip (String.mk (List.replicate 20001 'x')) ≠ "" := by
  rw [Ne, pyStrip_eq_empty_iff]
  intro hall
  have hx : isPySpace 'x' = true := by
    apply hall
    show 'x' ∈ List.replicate 20001 'x'
    exact List.mem_replicate.mpr ⟨by norm_num, rfl⟩
  simp [isPySpace] at hx

/-- The delimited segment contributed by the big file. -/
lemma bigSegment : segmentOf bigTxtFile =
    "\n\n===== FILE: b.txt =====\n" ++ String.mk (List.replicate 20001 'x') := by
  unfold segmentOf
  rw [bigExtract]
  rw [if_pos (bne_iff_ne.mpr bigStripNe)]
  rw [show bigTxtFile.name = "b.txt" from rfl]
  rw [show ("\n\n===== FILE: " ++ "b.txt" ++ " =====\n" : String) =
      "\n\n===== FILE: b.txt =====\n" from by decide]

/-- Combined text of the big folder: header plus the 20001 characters. -/
lemma bigCombined : (collect_text_from_folder [bigTxtFile]).combined_text =
    "\n\n===== FILE: b.txt =====\n" ++ String.mk (List.replicate 20001 'x') := by
  show String.join ((scanFolder [bigTxtFile]).map segmentOf) = _
  rw [bigScan]
  show String.join [segmentOf bigTxtFile] = _
  rw [bigSegment]
  show "" ++ _ = _
  exact string_nil_append _

/-- The big folder's combined text exceeds the 20000-character bound. -/
lemma bigLen : 20000 < (collect_text_from_folder [bigTxtFile]).combined_text.data.length := by
  rw [bigCombined, String.data_append, List.length_append]
  have h1 : "\n\n===== FILE: b.txt =====\n".data.length = 26 := by decide
  have h2 : (String.mk (List.replicate 20001 'x')).data.length = 20001 := by
    show (List.replicate 20001 'x').length = 20001
    exact List.length_replicate 20001 'x'
  rw [h1, h2]
  norm_num

/-- The big folder's combined text does not strip to empty. -/
lemma bigStripCombinedNe :
    pyStrip (collect_text_from_folder [bigTxtFile]).combined_text ≠ "" := by
  rw [bigCombined, Ne, pyStrip_eq_empty_iff]
  intro hall
  have hx : isPySpace 'x' = true := by
    apply hall
    rw [String.data_append]
    apply List.mem_append.mpr
    right
    show 'x' ∈ List.replicate 20001 'x'
    exact List.mem_replicate.mpr ⟨by norm_num, rfl⟩
  simp [isPySpace] at hx

/-- C5: when the collected combined text is longer than 20000 characters,
the prompt handed to the adapter is built from exactly its first 20000
characters — the pipeline result depends on the adapter only through its
value at that truncated prompt — while the attached `files` report stays
the full, untruncated per-file list. -/
theorem claim_C5 (fs : List SysFile)
    (h1 : 20000 < (collect_text_from_folder fs).combined_text.data.length)
    (h2 : pyStrip (collect_text_from_folder fs).combined_text ≠ "") :
    (pyTake (collect_text_from_folder fs).combined_text 20000).data.length = 20000
    ∧ (∀ (llm llm' : String → Except String String)
        (jparse : String → Except String JVal),
        llm (buildUserPrompt (pyTake (collect_text_from_folder fs).combined_text 20000)) =
          llm' (buildUserPrompt (pyTake (collect_text_from_folder fs).combined_text 20000)) →
        analyse_folder fs llm jparse = analyse_folder fs llm' jparse)
    ∧ (∀ (llm : String → Except String String) (jparse : String → Except String JVal),
        jsonGet (analyse_folder fs llm jparse) "files" =
          some (filesJson (collect_text_from_folder fs).files)) := by
  refine ⟨?_, ?_, ?_⟩
  · show ((collect_text_from_folder fs).combined_text.data.take 20000).length = 20000
    rw [List.length_take]
    exact Nat.min_eq_left (Nat.le_of_lt h1)
  · intro llm llm' jparse hllm
    unfold analyse_folder
    rw [if_neg h2, if_neg h2, hllm]
  · intro llm jparse
    exact analyse_folder_files_get fs llm jparse

/-- C5 witness: a folder whose single text file holds 20001 characters. -/
theorem claim_C5_witness :
    (20000 < (collect_text_from_folder [bigTxtFile]).combined_text.data.length
      ∧ pyStrip (collect_text_from_folder [bigTxtFile]).combined_text ≠ "")
    ∧ ((pyTake (collect_text_from_folder [bigTxtFile]).combined_text 20000).data.length = 20000
      ∧ (∀ (llm llm' : String → Except String String)
          (jparse : String → Except String JVal),
          llm (buildUserPrompt (pyTake (collect_text_from_folder [bigTxtFile]).combined_text 20000)) =
            llm' (buildUserPrompt (pyTake (collect_text_from_folder [bigTxtFile]).combined_text 20000)) →
          analyse_folder [bigTxtFile] llm jparse = analyse_folder [bigTxtFile] llm' jparse)
      ∧ (∀ (llm : String → Except String String) (jparse : String → Except String JVal),
          jsonGet (analyse_folder [bigTxtFile] llm jparse) "files" =
            some (filesJson (collect_text_from_folder [bigTxtFile]).files))) :=
  ⟨⟨bigLen, bigStripCombinedNe⟩, claim_C5 [bigTxtFile] bigLen bigStripCombinedNe⟩

/-- C2 witness: the amended enumeration characterisation at the demo
folder and the name `a.txt`. -/
theorem claim_C2_witness :
    (∃ r ∈ (collect_text_from_folder demoFolder).files, r.filename = "a.txt") ↔
      (∃ f ∈ demoFolder, f.name = "a.txt"
        ∧ (".pdf".data.isSuffixOf "a.txt".data = true
            ∨ ".docx".data.isSuffixOf "a.txt".data = true
            ∨ ".txt".data.isSuffixOf "a.txt".data = true)
        ∧ "a.txt".data.head? ≠ some '.') :=
  claim_C2 demoFolder "a.txt"

/-- C10 witness: the grouped decomposition at the demo folder. -/
theorem claim_C10_witness :
    ∃ l1 l2 l3,
      (collect_text_from_folder demoFolder).files = l1 ++ l2 ++ l3
      ∧ (∀ r ∈ l1, r.extension = ".pdf")
      ∧ (∀ r ∈ l2, r.extension = ".docx")
      ∧ (∀ r ∈ l3, r.extension = ".txt") :=
  claim_C10 demoFolder
